import Mathlib

/-!
Verification of the DB-Impact-Analyzer core engine.

This file gives a shallow embedding of the engine modules
(`src/engine/models.py`, `src/engine/reasoning.py`, `src/engine/batch_analyzer.py`,
`src/engine/what_if.py`, `src/engine/aws_state.py`, `src/infra/lambda_handler.py`)
and proves properties of the embedded operations.

External effects are modelled by explicit parameters: the reasoning service is an
oracle function supplying the per-call result, wall-clock time is an explicit
rational argument, and the thread-pool completion order of a batch is an explicit
list argument.  Machine floats that only ever get stored and compared
(timestamps, confidence values) are modelled as rationals.
-/

namespace DBImpact

/-- The four severity ranks of `business_severity`
(`Literal["LOW","MEDIUM","HIGH","CRITICAL"]` in `models.py`). -/
inductive Severity where
  | LOW
  | MEDIUM
  | HIGH
  | CRITICAL
deriving DecidableEq, Repr

/-- String form of a severity, as it appears in the JSON replies. -/
def severityString : Severity → String
  | .LOW => "LOW"
  | .MEDIUM => "MEDIUM"
  | .HIGH => "HIGH"
  | .CRITICAL => "CRITICAL"

/-- `DbImpactResponse` from `models.py` (lines 27-35): the validated impact result.
`confidence` is declared as a plain `float` in the source, with no range
constraint; it is modelled as a rational. -/
structure DbImpactResponse where
  sla_violation : Bool
  rto_violation : Bool
  rpo_violation : Bool
  expected_outage_time_minutes : Int
  business_severity : Severity
  why : List String
  recommendations : List String
  confidence : Rat
deriving DecidableEq, Repr

/-- The decoded JSON object candidate extracted from the reasoning service's raw
reply, before pydantic validation.  A field is `none` when it is absent from the
decoded object; `business_severity` is kept as the raw string so that validation
of the `Literal` type can be expressed. -/
structure RawImpact where
  sla_violation : Option Bool
  rto_violation : Option Bool
  rpo_violation : Option Bool
  expected_outage_time_minutes : Option Int
  business_severity : Option String
  why : Option (List String)
  recommendations : Option (List String)
  confidence : Option Rat
deriving DecidableEq, Repr

/-- Validation of the raw severity string against
`Literal["LOW","MEDIUM","HIGH","CRITICAL"]`. -/
def parseSeverity (s : String) : Option Severity :=
  if s = "LOW" then some .LOW
  else if s = "MEDIUM" then some .MEDIUM
  else if s = "HIGH" then some .HIGH
  else if s = "CRITICAL" then some .CRITICAL
  else none

/-- Pydantic validation of the decoded object against `DbImpactResponse`
(`DbImpactResponse.model_validate_json` at `reasoning.py` line 48): every field
is required, `business_severity` must be one of the four literals, and
`confidence` is accepted as any number (the source declares it as a bare
`float`). -/
def validateImpact (r : RawImpact) : Except String DbImpactResponse :=
  match r.sla_violation, r.rto_violation, r.rpo_violation,
        r.expected_outage_time_minutes, r.business_severity,
        r.why, r.recommendations, r.confidence with
  | some sla, some rto, some rpo, some outage, some sev, some why, some recs, some conf =>
    match parseSeverity sev with
    | some s => .ok ⟨sla, rto, rpo, outage, s, why, recs, conf⟩
    | none => .error "business_severity must be one of LOW, MEDIUM, HIGH, CRITICAL"
  | _, _, _, _, _, _, _, _ => .error "missing required field"

/-- Whether every required field is present in the decoded object. -/
def allFieldsPresent (r : RawImpact) : Bool :=
  r.sla_violation.isSome && r.rto_violation.isSome && r.rpo_violation.isSome &&
  r.expected_outage_time_minutes.isSome && r.business_severity.isSome &&
  r.why.isSome && r.recommendations.isSome && r.confidence.isSome

/-- Modelled from the spec: the class `DbConfig` is imported from
`src.engine.models` throughout the engine but its definition is absent from the
sources; its fields follow the spec's `DatabaseConfig` data model and the
constructions in `aws_state.py` (`FAKE_DATABASES`, `get_real_db_state`) and
`prompt_builder.format_db_config`. -/
structure DbConfig where
  identifier : String
  engine : String
  instance_class : String
  multi_az : Bool
  backup_retention_days : Int
  pitr_enabled : Bool
  read_replicas : List String
  allocated_storage : Int
  max_allocated_storage : Int
  storage_encrypted : Bool
  engine_version : Option String
deriving DecidableEq, Repr

/-- The invariant `max_allocated_storage ≥ allocated_storage` stated for the
`DatabaseConfig` data model in the spec. -/
def storageInvariant (c : DbConfig) : Prop :=
  c.allocated_storage ≤ c.max_allocated_storage

instance (c : DbConfig) : Decidable (storageInvariant c) :=
  inferInstanceAs (Decidable (c.allocated_storage ≤ c.max_allocated_storage))

/-- The `config_overrides` map of a what-if request.  The keys of the source's
dict are restricted by `WhatIfRequest.validate_config_overrides` to the fixed
allow-list, so the map is modelled as one optional slot per allowed key;
a `none` slot means the key is absent from the dict. -/
structure ConfigOverrides where
  multi_az : Option Bool := none
  backup_retention_days : Option Int := none
  storage_encrypted : Option Bool := none
  instance_class : Option String := none
  allocated_storage : Option Int := none
  max_allocated_storage : Option Int := none
  read_replicas : Option (List String) := none
  auto_minor_version_upgrade : Option Bool := none
deriving DecidableEq, Repr

/-- The keys present in the overrides dict. -/
def ConfigOverrides.presentKeys (o : ConfigOverrides) : List String :=
  (if o.multi_az.isSome then ["multi_az"] else []) ++
  (if o.backup_retention_days.isSome then ["backup_retention_days"] else []) ++
  (if o.storage_encrypted.isSome then ["storage_encrypted"] else []) ++
  (if o.instance_class.isSome then ["instance_class"] else []) ++
  (if o.allocated_storage.isSome then ["allocated_storage"] else []) ++
  (if o.max_allocated_storage.isSome then ["max_allocated_storage"] else []) ++
  (if o.read_replicas.isSome then ["read_replicas"] else []) ++
  (if o.auto_minor_version_upgrade.isSome then ["auto_minor_version_upgrade"] else [])

/-- `baseline_db_state.model_copy(update=request.config_overrides)` at
`what_if.py` line 24: pydantic's `model_copy` returns a new object whose
updated fields take the values from the update map and whose other fields keep
the copied object's values; it performs no validation.
`auto_minor_version_upgrade` is an allowed override key but is not a field of
the configuration model, so it does not affect any configuration field. -/
def model_copy_update (c : DbConfig) (o : ConfigOverrides) : DbConfig :=
  { c with
    multi_az := o.multi_az.getD c.multi_az
    backup_retention_days := o.backup_retention_days.getD c.backup_retention_days
    storage_encrypted := o.storage_encrypted.getD c.storage_encrypted
    instance_class := o.instance_class.getD c.instance_class
    allocated_storage := o.allocated_storage.getD c.allocated_storage
    max_allocated_storage := o.max_allocated_storage.getD c.max_allocated_storage
    read_replicas := o.read_replicas.getD c.read_replicas }

/-- The scenario registry keys of `SCENARIOS` in `scenarios.py`. -/
def SCENARIOS : List String :=
  ["primary_db_failure", "replica_lag", "backup_failure", "storage_pressure"]

/-- `validate_scenario` from `scenarios.py`: membership in the registry. -/
def validate_scenario (s : String) : Bool :=
  SCENARIOS.contains s

/-- A character allowed after the first one by the identifier pattern
`[a-zA-Z0-9-]`. -/
def isIdentBodyChar (c : Char) : Bool :=
  c.isAlphanum || c = '-'

/-- Match of a character sequence against `[a-zA-Z][a-zA-Z0-9-]{0,62}` in
full. -/
def core_chars_match (cs : List Char) : Bool :=
  match cs with
  | [] => false
  | c :: rest => c.isAlpha && decide (rest.length ≤ 62) && rest.all isIdentBodyChar

/-- Whole-string match of `[a-zA-Z][a-zA-Z0-9-]{0,62}`. -/
def core_id_match (s : String) : Bool :=
  core_chars_match s.data

/-- The source's identifier check
`re.match(r'^[a-zA-Z][a-zA-Z0-9-]{0,62}$', v)` (`models.py` line 16) under
Python `re` semantics, where `$` also matches just before one final newline. -/
def py_id_match (s : String) : Bool :=
  core_chars_match s.data ||
    (match s.data.getLast? with
     | some c => (c == '\n') && core_chars_match s.data.dropLast
     | none => false)

/-- The characters removed by Python's default `str.strip`. -/
def pyIsSpace (c : Char) : Bool :=
  c = ' ' || c = '\t' || c = '\n' || c = '\r' || c = '\x0b' || c = '\x0c'

/-- Python's `str.strip()`: the string with leading and trailing whitespace
removed. -/
def pyStrip (s : String) : String :=
  ⟨((s.data.dropWhile pyIsSpace).reverse.dropWhile pyIsSpace).reverse⟩

/-- A validated `DbScenarioRequest` (`models.py` lines 6-25). -/
structure DbScenarioRequestV where
  db_identifier : String
  scenario : String
deriving DecidableEq, Repr

/-- Construction of a `DbScenarioRequest`, running the two field validators
(`validate_db_identifier`, `validate_scenario_exists`): empty or
whitespace-only identifiers and identifiers failing the RDS pattern are
rejected, the scenario must exist in the registry, and both fields are
stripped. -/
def mkDbScenarioRequest (v scenario : String) : Except String DbScenarioRequestV :=
  if pyStrip v = "" then
    .error "db_identifier cannot be empty"
  else if !py_id_match v then
    .error "db_identifier must be valid AWS RDS identifier"
  else if !validate_scenario scenario then
    .error "Invalid scenario"
  else
    .ok ⟨pyStrip v, pyStrip scenario⟩

/-- A validated `BatchRequest` (`models.py` lines 37-56). -/
structure BatchRequestV where
  db_identifiers : List String
  scenario : String
deriving DecidableEq, Repr

/-- Construction of a `BatchRequest`: the list size must be in `[1,50]` and the
scenario must exist; the individual identifiers are not validated here. -/
def mkBatchRequest (ids : List String) (scenario : String) : Except String BatchRequestV :=
  if 50 < ids.length then
    .error "Batch size exceeds maximum of 50 databases"
  else if ids.length = 0 then
    .error "At least one database identifier required"
  else if !validate_scenario scenario then
    .error "Invalid scenario"
  else
    .ok ⟨ids, scenario⟩

/-- A validated `WhatIfRequest` (`models.py` lines 67-106). -/
structure WhatIfRequestV where
  db_identifier : String
  scenario : String
  config_overrides : ConfigOverrides
deriving DecidableEq, Repr

/-- Construction of a `WhatIfRequest`, running its three field validators:
`config_overrides` must be non-empty (its keys are restricted to the allow-list
by the modelling of `ConfigOverrides`), the scenario must exist, and
`validate_db_identifier` (`models.py` lines 101-106) only rejects empty or
whitespace-only identifiers — it applies no pattern check. -/
def mkWhatIfRequest (v scenario : String) (ov : ConfigOverrides) :
    Except String WhatIfRequestV :=
  if ov.presentKeys.isEmpty then
    .error "config_overrides cannot be empty"
  else if !validate_scenario scenario then
    .error "Invalid scenario"
  else if pyStrip v = "" then
    .error "db_identifier cannot be empty"
  else
    .ok ⟨pyStrip v, scenario, ov⟩

/-- One entry of the `results` list of a `BatchResponse`
(`batch_analyzer.py` lines 27-37): a success item carrying the analysis, or an
error item carrying the failure message. -/
inductive BatchItem where
  | success (db_identifier : String) (analysis : DbImpactResponse)
  | error (db_identifier : String) (message : String)
deriving DecidableEq, Repr

/-- Whether an item has `status == "success"`. -/
def isSuccessItem : BatchItem → Bool
  | .success _ _ => true
  | .error _ _ => false

/-- Whether an item has `status == "error"`. -/
def isErrorItem : BatchItem → Bool
  | .success _ _ => false
  | .error _ _ => true

/-- The rank a success item's severity gets from the `severity_order` dict of
`batch_analyzer.py` line 38. -/
def successRank : Severity → Nat
  | .CRITICAL => 0
  | .HIGH => 1
  | .MEDIUM => 2
  | .LOW => 3

/-- The sort key of `results.sort` (`batch_analyzer.py` lines 40-46): a success
item is keyed by its severity rank and an error item by the `ERROR` rank 4. -/
def itemKey : BatchItem → Nat
  | .success _ r => successRank r.business_severity
  | .error _ _ => 4

/-- Comparison of two result items by their sort key. -/
def itemLE (a b : BatchItem) : Prop :=
  itemKey a ≤ itemKey b

instance : DecidableRel itemLE := fun a b => Nat.decLe (itemKey a) (itemKey b)

instance : IsTotal BatchItem itemLE := ⟨fun a b => Nat.le_total (itemKey a) (itemKey b)⟩

instance : IsTrans BatchItem itemLE := ⟨fun _ _ _ => Nat.le_trans⟩

/-- The item recorded for one settled future (`batch_analyzer.py` lines 24-37):
a returned result becomes a success item, a raised exception an error item
carrying the exception's message. -/
def mkItem (db_identifier : String) (outcome : Except String DbImpactResponse) : BatchItem :=
  match outcome with
  | .ok r => .success db_identifier r
  | .error e => .error db_identifier e

/-- The unsorted results list in completion order: the `as_completed` loop
records one item per identifier, in the order `order` in which the futures
complete, with `sim` giving each identifier's `run_simulation` outcome. -/
def batchItems (sim : String → Except String DbImpactResponse)
    (order : List String) : List BatchItem :=
  order.map (fun i => mkItem i (sim i))

/-- The count a severity counter reaches over the loop: one increment per
success item with that severity (`batch_analyzer.py` line 26). -/
def countSeverity (items : List BatchItem) (s : Severity) : Nat :=
  items.countP (fun it =>
    match it with
    | .success _ r => r.business_severity == s
    | .error _ _ => false)

/-- `BatchResponse` from `models.py` lines 58-64. -/
structure BatchResponse where
  total_count : Nat
  critical_count : Nat
  high_count : Nat
  medium_count : Nat
  low_count : Nat
  results : List BatchItem
deriving DecidableEq, Repr

/-- The first validation error raised while the dispatch loop constructs
`DbScenarioRequest(db_identifier=..., scenario=...)` for each identifier
(`batch_analyzer.py` line 17); this construction happens outside the
per-future `try` block. -/
def firstValidationError (ids : List String) (scenario : String) : Option String :=
  ids.findSome? (fun i =>
    match mkDbScenarioRequest i scenario with
    | .error e => some e
    | .ok _ => none)

/-- `batch_analyze` from `batch_analyzer.py`.  The thread pool is modelled by
`sim` (the per-identifier `run_simulation` outcome) together with `order`, the
order in which the dispatched futures complete.  A `DbScenarioRequest`
validation failure during dispatch propagates out of the call; otherwise every
settled future is recorded as an item, the items are sorted stably by
`itemKey` (Python's `list.sort` is stable), and the counters are aggregated
over success items only. -/
def batch_analyze (ids : List String) (scenario : String)
    (sim : String → Except String DbImpactResponse)
    (order : List String) : Except String BatchResponse :=
  match firstValidationError ids scenario with
  | some e => .error e
  | none =>
    let results := batchItems sim order
    let sorted := results.insertionSort itemLE
    .ok
      { total_count := sorted.length
        critical_count := countSeverity results .CRITICAL
        high_count := countSeverity results .HIGH
        medium_count := countSeverity results .MEDIUM
        low_count := countSeverity results .LOW
        results := sorted }

/-- `ImprovementSummary`: the `improvement_summary` dict built by
`what_if_analysis` (`what_if.py` lines 42-49). -/
structure ImprovementSummary where
  severity_improved : Bool
  severity_change : String
  rto_reduction_minutes : Int
  sla_violation_prevented : Bool
  rto_violation_prevented : Bool
  rpo_violation_prevented : Bool
deriving DecidableEq, Repr

/-- The `SEVERITY_ORDER` dict of `what_if.py` line 28. -/
def SEVERITY_ORDER : Severity → Nat
  | .CRITICAL => 4
  | .HIGH => 3
  | .MEDIUM => 2
  | .LOW => 1

/-- The improvement summary computed at `what_if.py` lines 28-49 from the
baseline and the what-if analysis results. -/
def mkImprovementSummary (b m : DbImpactResponse) : ImprovementSummary :=
  { severity_improved :=
      decide (SEVERITY_ORDER m.business_severity < SEVERITY_ORDER b.business_severity)
    severity_change :=
      severityString b.business_severity ++ " -> " ++ severityString m.business_severity
    rto_reduction_minutes :=
      b.expected_outage_time_minutes - m.expected_outage_time_minutes
    sla_violation_prevented := b.sla_violation && !m.sla_violation
    rto_violation_prevented := b.rto_violation && !m.rto_violation
    rpo_violation_prevented := b.rpo_violation && !m.rpo_violation }

/-- `WhatIfResponse` from `models.py` lines 108-111. -/
structure WhatIfResponse where
  baseline_analysis : DbImpactResponse
  what_if_analysis : DbImpactResponse
  improvement_summary : ImprovementSummary
deriving DecidableEq, Repr

/-- The core of `what_if_analysis` (`what_if.py` lines 20-56) after the
baseline configuration has been resolved: run the baseline analysis on the
resolved state, derive the modified configuration with
`model_copy(update=config_overrides)`, run the what-if-flagged analysis on it,
and compute the improvement summary.  `sim cfg isWhatIf` is the
`run_simulation` result for the given configuration and what-if flag. -/
def what_if_core (baseline_db_state : DbConfig) (overrides : ConfigOverrides)
    (sim : DbConfig → Bool → DbImpactResponse) : WhatIfResponse :=
  let baseline_analysis := sim baseline_db_state false
  let what_if_db_state := model_copy_update baseline_db_state overrides
  let what_if_result := sim what_if_db_state true
  { baseline_analysis := baseline_analysis
    what_if_analysis := what_if_result
    improvement_summary := mkImprovementSummary baseline_analysis what_if_result }

/-- One entry of the `CACHE` dict of `lambda_handler.py`: the stored response
and its insertion timestamp. -/
structure CacheEntry where
  response : DbImpactResponse
  ts : Rat
deriving DecidableEq, Repr

/-- The `CACHE` dict, as an association list from key to entry. -/
abbrev Cache := List (String × CacheEntry)

/-- Dict lookup `CACHE[cache_key]`. -/
def cacheLookup (c : Cache) (key : String) : Option CacheEntry :=
  (c.find? (fun e => e.fst == key)).map Prod.snd

/-- Dict deletion `del CACHE[cache_key]`. -/
def cacheEvict (c : Cache) (key : String) : Cache :=
  c.filter (fun e => !(e.fst == key))

/-- The cache TTL of 600 seconds (`lambda_handler.py` line 159). -/
def CACHE_TTL : Rat := 600

/-- `get_cached_or_run_simulation` from `lambda_handler.py` lines 147-172.
`now` is the value of `time.time()` during the call and `fresh` is the result
`run_simulation` would produce if invoked.  The returned flag records whether
`run_simulation` was invoked. -/
def get_cached_or_run_simulation (c : Cache) (key : String) (now : Rat)
    (fresh : DbImpactResponse) : DbImpactResponse × Cache × Bool :=
  match cacheLookup c key with
  | some entry =>
    if now - entry.ts < CACHE_TTL then
      (entry.response, c, false)
    else
      (fresh, cacheEvict c key ++ [(key, ⟨fresh, now⟩)], true)
  | none => (fresh, c ++ [(key, ⟨fresh, now⟩)], true)

/-- The single-analysis route of `handler` (`lambda_handler.py` lines 89-101):
it serves the request through the cache, keyed by
`f"{db_identifier}#{scenario}"`. -/
def handle_single (c : Cache) (req : DbScenarioRequestV) (now : Rat)
    (fresh : DbImpactResponse) : DbImpactResponse × Cache :=
  let out := get_cached_or_run_simulation c (req.db_identifier ++ "#" ++ req.scenario) now fresh
  (out.fst, out.snd.fst)

/-- The what-if route of `handler` (`lambda_handler.py` lines 69-78): it calls
`what_if_analysis(req)` directly; neither `what_if_analysis` nor anything it
calls references `CACHE`, so the cache is passed through untouched. -/
def handle_what_if (c : Cache) (baseline_db_state : DbConfig)
    (overrides : ConfigOverrides) (sim : DbConfig → Bool → DbImpactResponse) :
    WhatIfResponse × Cache :=
  (what_if_core baseline_db_state overrides sim, c)

/-- The raw record for one DB instance as returned by the external
`describe_db_instances` call (`aws_state.py` lines 77-101); optional fields are
the ones read with `dict.get`. -/
structure RawDbInstance where
  DBInstanceIdentifier : String
  DBInstanceClass : String
  Engine : String
  MultiAZ : Bool
  BackupRetentionPeriod : Int
  ReadReplicaDBInstanceIdentifiers : Option (List String)
  AllocatedStorage : Int
  MaxAllocatedStorage : Option Int
  StorageEncrypted : Option Bool
  EngineVersion : Option String
deriving DecidableEq, Repr

/-- Modelled from the spec: construction of a `DbConfig` value through its
(absent) pydantic model, which per the spec's data model enforces the invariant
`max_allocated_storage ≥ allocated_storage`; construction fails rather than
produce a value violating it.  (`model_copy_update` deliberately bypasses this
validation, as pydantic's `model_copy` does.) -/
def mkDbConfigChecked (identifier engine instance_class : String) (multi_az : Bool)
    (backup_retention_days : Int) (pitr_enabled : Bool) (read_replicas : List String)
    (allocated_storage max_allocated_storage : Int) (storage_encrypted : Bool)
    (engine_version : Option String) : Except String DbConfig :=
  if allocated_storage ≤ max_allocated_storage then
    .ok ⟨identifier, engine, instance_class, multi_az, backup_retention_days,
         pitr_enabled, read_replicas, allocated_storage, max_allocated_storage,
         storage_encrypted, engine_version⟩
  else
    .error "max_allocated_storage must be at least allocated_storage"

/-- `get_real_db_state` (`aws_state.py` lines 89-101) applied to the raw record
obtained from the describe call: maps the source fields onto the configuration
model, deriving `pitr_enabled` from `BackupRetentionPeriod > 0` and defaulting
`MaxAllocatedStorage` to `AllocatedStorage` when the source omits it. -/
def get_real_db_state (raw : RawDbInstance) : Except String DbConfig :=
  mkDbConfigChecked raw.DBInstanceIdentifier raw.Engine raw.DBInstanceClass
    raw.MultiAZ raw.BackupRetentionPeriod (raw.BackupRetentionPeriod > 0)
    (raw.ReadReplicaDBInstanceIdentifiers.getD [])
    raw.AllocatedStorage (raw.MaxAllocatedStorage.getD raw.AllocatedStorage)
    (raw.StorageEncrypted.getD false) raw.EngineVersion

/-- The seed entry `prod-orders-db-01` of `FAKE_DATABASES` (`aws_state.py`). -/
def fakeOrdersDb : DbConfig :=
  { identifier := "prod-orders-db-01"
    engine := "mysql"
    instance_class := "db.m5.large"
    multi_az := false
    backup_retention_days := 7
    pitr_enabled := false
    read_replicas := []
    allocated_storage := 100
    max_allocated_storage := 1000
    storage_encrypted := false
    engine_version := none }

/-- The seed entry `prod-users-db` of `FAKE_DATABASES`. -/
def fakeUsersDb : DbConfig :=
  { identifier := "prod-users-db"
    engine := "postgres"
    instance_class := "db.m5.xlarge"
    multi_az := true
    backup_retention_days := 7
    pitr_enabled := true
    read_replicas := []
    allocated_storage := 100
    max_allocated_storage := 1000
    storage_encrypted := false
    engine_version := none }

/-- The seed entry `dev-analytics-db-03` of `FAKE_DATABASES`. -/
def fakeAnalyticsDb : DbConfig :=
  { identifier := "dev-analytics-db-03"
    engine := "postgres"
    instance_class := "db.t3.medium"
    multi_az := false
    backup_retention_days := 3
    pitr_enabled := false
    read_replicas := []
    allocated_storage := 450
    max_allocated_storage := 500
    storage_encrypted := false
    engine_version := none }

/-- The seed entry `prod-payments-db` of `FAKE_DATABASES`. -/
def fakePaymentsDb : DbConfig :=
  { identifier := "prod-payments-db"
    engine := "mysql"
    instance_class := "db.m5.large"
    multi_az := true
    backup_retention_days := 14
    pitr_enabled := true
    read_replicas := ["prod-payments-db-replica-1", "prod-payments-db-replica-2"]
    allocated_storage := 200
    max_allocated_storage := 2000
    storage_encrypted := false
    engine_version := none }

/-- The `FAKE_DATABASES` seed directory of `aws_state.py`. -/
def FAKE_DATABASES : List (String × DbConfig) :=
  [("prod-orders-db-01", fakeOrdersDb),
   ("prod-users-db", fakeUsersDb),
   ("dev-analytics-db-03", fakeAnalyticsDb),
   ("prod-payments-db", fakePaymentsDb)]

/-- `get_fake_db_state` from `aws_state.py` lines 60-63. -/
def get_fake_db_state (db_identifier : String) : Except String DbConfig :=
  match (FAKE_DATABASES.find? (fun e => e.fst == db_identifier)).map Prod.snd with
  | some cfg => .ok cfg
  | none => .error "Database not found"

/-- The ordinal LOW < MEDIUM < HIGH < CRITICAL the spec uses to state severity
comparisons; a second, spec-side rank to compare against the code's
`SEVERITY_ORDER`. -/
def specSeverityRank : Severity → Nat
  | .LOW => 0
  | .MEDIUM => 1
  | .HIGH => 2
  | .CRITICAL => 3

/-- The spec's description of the modified what-if configuration: every
overridden field takes the override value, every field not mentioned in the
overrides equals the baseline's value (stated field by field over the
configuration model, to be compared with the code's `model_copy_update`). -/
def overlayMatchesSpec (c : DbConfig) (o : ConfigOverrides) (m : DbConfig) : Prop :=
  (∀ v, o.multi_az = some v → m.multi_az = v) ∧
  (o.multi_az = none → m.multi_az = c.multi_az) ∧
  (∀ v, o.backup_retention_days = some v → m.backup_retention_days = v) ∧
  (o.backup_retention_days = none → m.backup_retention_days = c.backup_retention_days) ∧
  (∀ v, o.storage_encrypted = some v → m.storage_encrypted = v) ∧
  (o.storage_encrypted = none → m.storage_encrypted = c.storage_encrypted) ∧
  (∀ v, o.instance_class = some v → m.instance_class = v) ∧
  (o.instance_class = none → m.instance_class = c.instance_class) ∧
  (∀ v, o.allocated_storage = some v → m.allocated_storage = v) ∧
  (o.allocated_storage = none → m.allocated_storage = c.allocated_storage) ∧
  (∀ v, o.max_allocated_storage = some v → m.max_allocated_storage = v) ∧
  (o.max_allocated_storage = none → m.max_allocated_storage = c.max_allocated_storage) ∧
  (∀ v, o.read_replicas = some v → m.read_replicas = v) ∧
  (o.read_replicas = none → m.read_replicas = c.read_replicas) ∧
  m.identifier = c.identifier ∧
  m.engine = c.engine ∧
  m.pitr_enabled = c.pitr_enabled ∧
  m.engine_version = c.engine_version

/-! ### Concrete sample values -/

/-- A sample impact result of severity HIGH. -/
def respHIGH : DbImpactResponse :=
  ⟨true, true, false, 90, .HIGH, ["no Multi-AZ"], ["enable Multi-AZ"], 1⟩

/-- A sample impact result of severity LOW. -/
def respLOW : DbImpactResponse :=
  ⟨false, false, false, 5, .LOW, [], [], 1⟩

/-- A sample impact result of severity CRITICAL. -/
def respCRITICAL : DbImpactResponse :=
  ⟨true, true, true, 240, .CRITICAL, ["single AZ"], ["enable PITR"], 1⟩

/-- A sample impact result of severity MEDIUM. -/
def respMEDIUM : DbImpactResponse :=
  ⟨false, true, false, 45, .MEDIUM, [], [], 1⟩

/-- A decoded reply with every required field present, a valid severity, and a
confidence of 2, outside `[0,1]`. -/
def rawOverConfidence : RawImpact :=
  ⟨some false, some false, some false, some 30, some "HIGH", some ["w"], some ["r"], some 2⟩

/-- The impact result that `rawOverConfidence` validates to. -/
def impactOverConfidence : DbImpactResponse :=
  ⟨false, false, false, 30, .HIGH, ["w"], ["r"], 2⟩

/-- A reasoning-service oracle for batch runs: one unresolved identifier, the
others succeeding with differing severities. -/
def simBatchMixed : String → Except String DbImpactResponse := fun i =>
  if i == "prod-users-db" then .error "Database prod-users-db not found in AWS"
  else if i == "prod-orders-db-01" then .ok respHIGH
  else .ok respLOW

/-- The response the mixed batch run settles to. -/
def respBatchMixed : BatchResponse :=
  { total_count := 3
    critical_count := 0
    high_count := 1
    medium_count := 0
    low_count := 1
    results :=
      [.success "prod-orders-db-01" respHIGH,
       .success "dev-analytics-db-03" respLOW,
       .error "prod-users-db" "Database prod-users-db not found in AWS"] }

/-- The response a two-identifier batch with one unresolved identifier settles
to. -/
def respBatchTwo : BatchResponse :=
  { total_count := 2
    critical_count := 0
    high_count := 1
    medium_count := 0
    low_count := 0
    results :=
      [.success "prod-orders-db-01" respHIGH,
       .error "prod-users-db" "Database prod-users-db not found in AWS"] }

/-- A reasoning-service oracle used for the counter aggregation run. -/
def simBatchCounts : String → Except String DbImpactResponse := fun i =>
  if i == "prod-payments-db" then .ok respCRITICAL
  else if i == "dev-analytics-db-03" then .ok respMEDIUM
  else .error "Throttling exception from bedrock - too many requests"

/-- The response the counter aggregation batch settles to. -/
def respBatchCounts : BatchResponse :=
  { total_count := 3
    critical_count := 1
    high_count := 0
    medium_count := 1
    low_count := 0
    results :=
      [.success "prod-payments-db" respCRITICAL,
       .success "dev-analytics-db-03" respMEDIUM,
       .error "prod-users-db" "Throttling exception from bedrock - too many requests"] }

/-- A reasoning-service oracle succeeding uniformly with severity LOW. -/
def simAllOk : String → Except String DbImpactResponse := fun _ => .ok respLOW

/-- An override map that only enables Multi-AZ (spec Example 3). -/
def ovMultiAz : ConfigOverrides := { multi_az := some true }

/-- An override map raising `allocated_storage` to 2000 GB, above
`fakeOrdersDb`'s `max_allocated_storage` of 1000 GB; its single key is on the
allow-list. -/
def ovOverAlloc : ConfigOverrides := { allocated_storage := some 2000 }

/-- A raw describe record whose source-reported storage bound dominates the
allocation. -/
def rawSample : RawDbInstance :=
  { DBInstanceIdentifier := "prod-inventory-db"
    DBInstanceClass := "db.m5.large"
    Engine := "postgres"
    MultiAZ := false
    BackupRetentionPeriod := 7
    ReadReplicaDBInstanceIdentifiers := none
    AllocatedStorage := 100
    MaxAllocatedStorage := some 500
    StorageEncrypted := some true
    EngineVersion := some "15.4" }

/-- The configuration `rawSample` resolves to. -/
def cfgSample : DbConfig :=
  { identifier := "prod-inventory-db"
    engine := "postgres"
    instance_class := "db.m5.large"
    multi_az := false
    backup_retention_days := 7
    pitr_enabled := true
    read_replicas := []
    allocated_storage := 100
    max_allocated_storage := 500
    storage_encrypted := true
    engine_version := some "15.4" }

/-- A cache holding one entry, inserted at time 0, for the single-analysis key
of `prod-orders-db-01` under the default scenario. -/
def cacheOneEntry : Cache :=
  [("prod-orders-db-01#primary_db_failure", ⟨respLOW, 0⟩)]

/-- A what-if reasoning oracle: LOW once Multi-AZ is enabled, HIGH otherwise. -/
def simWhatIf : DbConfig → Bool → DbImpactResponse := fun cfg _ =>
  if cfg.multi_az then respLOW else respHIGH

/-! ### Helper lemmas -/

/-- An item's key is 4 exactly when the item is an error item. -/
theorem itemKey_eq_four_iff (x : BatchItem) : itemKey x = 4 ↔ isErrorItem x = true := by
  cases x with
  | success db r =>
    obtain ⟨sla, rto, rpo, outg, sev, why, recs, conf⟩ := r
    cases sev <;> simp [itemKey, isErrorItem, successRank]
  | error db e => simp [itemKey, isErrorItem]

/-- The stable sort keeps each key class of the list unchanged. -/
theorem filter_key_insertionSort (l : List BatchItem) (k : Nat) :
    (l.insertionSort itemLE).filter (fun a => itemKey a == k) =
      l.filter (fun a => itemKey a == k) := by
  have hperm : ((l.insertionSort itemLE).filter (fun a => itemKey a == k)).Perm
      (l.filter (fun a => itemKey a == k)) :=
    (List.perm_insertionSort itemLE l).filter _
  have hpw : (l.filter (fun a => itemKey a == k)).Pairwise itemLE := by
    apply List.pairwise_of_forall_mem_list
    intro a ha b hb
    have hak := (List.mem_filter.mp ha).2
    have hbk := (List.mem_filter.mp hb).2
    simp only [beq_iff_eq] at hak hbk
    unfold itemLE
    omega
  have hsub : List.Sublist (l.filter (fun a => itemKey a == k)) (l.insertionSort itemLE) :=
    List.sublist_insertionSort hpw l.filter_sublist
  have hsub2 : List.Sublist (l.filter (fun a => itemKey a == k))
      ((l.insertionSort itemLE).filter (fun a => itemKey a == k)) := by
    have := hsub.filter (fun a => itemKey a == k)
    simpa [List.filter_filter] using this
  exact (hsub2.eq_of_length hperm.length_eq.symm).symm

/-- The four severity counters add up to the number of success items. -/
theorem countSeverity_sum (items : List BatchItem) :
    countSeverity items .CRITICAL + countSeverity items .HIGH +
      countSeverity items .MEDIUM + countSeverity items .LOW =
      items.countP isSuccessItem := by
  induction items with
  | nil => rfl
  | cons it rest ih =>
    cases it with
    | success db r =>
      obtain ⟨sla, rto, rpo, outg, sev, why, recs, conf⟩ := r
      cases sev <;>
        simp only [countSeverity, List.countP_cons, isSuccessItem] at * <;>
        simp <;> omega
    | error db e =>
      simp only [countSeverity, List.countP_cons, isSuccessItem] at *
      simp
      omega

/-- Looking a key up after evicting it finds nothing. -/
theorem cacheLookup_evict (c : Cache) (key : String) :
    cacheLookup (cacheEvict c key) key = none := by
  induction c with
  | nil => rfl
  | cons e rest ih =>
    by_cases h : e.fst = key
    · simpa [cacheEvict, h] using ih
    · simp only [cacheEvict] at ih ⊢
      simp only [cacheLookup] at ih ⊢
      simp [List.filter_cons, h, List.find?, ih]

/-- Appending a key that is absent makes lookup find the appended entry. -/
theorem cacheLookup_append (c : Cache) (key : String) (e : CacheEntry)
    (h : cacheLookup c key = none) :
    cacheLookup (c ++ [(key, e)]) key = some e := by
  induction c with
  | nil => simp [cacheLookup, List.find?]
  | cons hd rest ih =>
    by_cases hk : hd.fst = key
    · exfalso
      simp [cacheLookup, List.find?, hk] at h
    · simp only [cacheLookup, List.cons_append, List.find?] at *
      rw [show (hd.fst == key) = false by simpa using hk] at *
      exact ih h

/-- An `ok` value is ok. -/
theorem isOk_ok {ε α : Type} (x : α) : (Except.ok x : Except ε α).isOk = true := rfl

/-- An `error` value is not ok. -/
theorem isOk_error {ε α : Type} (e : ε) : (Except.error e : Except ε α).isOk = false := rfl

/-- A successfully parsed severity pins down the raw string. -/
theorem parseSeverity_some (s : String) (sv : Severity)
    (h : parseSeverity s = some sv) : s = severityString sv := by
  unfold parseSeverity at h
  split_ifs at h with h1 h2 h3 h4
  · injection h with h0
    subst h0
    exact h1
  · injection h with h0
    subst h0
    exact h2
  · injection h with h0
    subst h0
    exact h3
  · injection h with h0
    subst h0
    exact h4

/-- The severity strings accepted by `parseSeverity` are exactly the four
literals. -/
theorem parseSeverity_isSome_iff (s : String) :
    (parseSeverity s).isSome = true ↔
      (s = "LOW" ∨ s = "MEDIUM" ∨ s = "HIGH" ∨ s = "CRITICAL") := by
  unfold parseSeverity
  split_ifs <;> simp_all

/-! ### Claim theorems -/

/-- Claim C1, amended.  Parsing the decoded reasoning reply fails whenever a
required `ImpactResult` field is missing or the severity value lies outside the
four ranks, and succeeds exactly when all fields are present and the severity is
one of the four literals; a produced result carries one of the four ranks and
takes its confidence value from the decoded object unchanged — the source puts
no `[0,1]` range constraint on `confidence`, so out-of-range confidences are
not rejected. -/
theorem claim1_amended (r : RawImpact) :
    ((validateImpact r).isOk = true ↔
      (allFieldsPresent r = true ∧
        ∀ s, r.business_severity = some s →
          (s = "LOW" ∨ s = "MEDIUM" ∨ s = "HIGH" ∨ s = "CRITICAL"))) ∧
    (∀ out, validateImpact r = .ok out →
      r.business_severity = some (severityString out.business_severity) ∧
      r.confidence = some out.confidence) := by
  obtain ⟨sla, rto, rpo, outg, sev, why, recs, conf⟩ := r
  cases sla <;> cases rto <;> cases rpo <;> cases outg <;>
    cases why <;> cases recs <;> cases conf <;> cases sev <;>
    (try (simp [validateImpact, allFieldsPresent, isOk_ok, isOk_error]; done))
  rename_i sla rto rpo outg why recs conf s
  rcases hps : parseSeverity s with _ | sv
  · have hnot := parseSeverity_isSome_iff s
    rw [hps] at hnot
    simp only [Option.isSome_none, Bool.false_eq_true, false_iff] at hnot
    simp [validateImpact, hps, allFieldsPresent, isOk_ok, isOk_error, hnot]
  · have hs := parseSeverity_some s sv hps
    have hmem := (parseSeverity_isSome_iff s).mp (by simp [hps])
    refine ⟨?_, ?_⟩
    · simp [validateImpact, hps, allFieldsPresent, isOk_ok, hmem]
    · intro out hout
      simp only [validateImpact, hps] at hout
      simp only [Except.ok.injEq] at hout
      subst hout
      exact ⟨by simp [hs], rfl⟩

/-- Claim C1, witness for the amended theorem: a fully populated decoded object
with severity HIGH parses successfully and its confidence is carried over. -/
theorem claim1_amended_witness :
    (validateImpact rawOverConfidence).isOk = true ∧
    rawOverConfidence.confidence = some impactOverConfidence.confidence :=
  ⟨(claim1_amended rawOverConfidence).1.mpr (by decide),
   ((claim1_amended rawOverConfidence).2 impactOverConfidence rfl).2⟩

/-- Claim C1, counterexample to the claim as stated: a decoded object whose
confidence is 2 — outside `[0,1]` — is not rejected; it parses to a result with
confidence 2. -/
theorem claim1_counterexample :
    validateImpact rawOverConfidence = .ok impactOverConfidence ∧
    ¬(impactOverConfidence.confidence ≤ 1) :=
  ⟨rfl, by norm_num [impactOverConfidence]⟩

/-- Claim C4.  For every what-if analysis that returns, the improvement summary
satisfies: `severity_improved` holds exactly when the modified severity ranks
strictly below the baseline severity under LOW < MEDIUM < HIGH < CRITICAL;
`rto_reduction_minutes` is the (possibly negative) difference of expected
outage minutes; and each `*_violation_prevented` equals
`baseline.*_violation AND NOT modified.*_violation`. -/
theorem claim4_improvement_summary (baseline : DbConfig) (ov : ConfigOverrides)
    (sim : DbConfig → Bool → DbImpactResponse) :
    ((what_if_core baseline ov sim).improvement_summary.severity_improved = true ↔
      specSeverityRank (what_if_core baseline ov sim).what_if_analysis.business_severity <
        specSeverityRank (what_if_core baseline ov sim).baseline_analysis.business_severity) ∧
    (what_if_core baseline ov sim).improvement_summary.rto_reduction_minutes =
      (what_if_core baseline ov sim).baseline_analysis.expected_outage_time_minutes -
        (what_if_core baseline ov sim).what_if_analysis.expected_outage_time_minutes ∧
    (what_if_core baseline ov sim).improvement_summary.sla_violation_prevented =
      ((what_if_core baseline ov sim).baseline_analysis.sla_violation &&
        !(what_if_core baseline ov sim).what_if_analysis.sla_violation) ∧
    (what_if_core baseline ov sim).improvement_summary.rto_violation_prevented =
      ((what_if_core baseline ov sim).baseline_analysis.rto_violation &&
        !(what_if_core baseline ov sim).what_if_analysis.rto_violation) ∧
    (what_if_core baseline ov sim).improvement_summary.rpo_violation_prevented =
      ((what_if_core baseline ov sim).baseline_analysis.rpo_violation &&
        !(what_if_core baseline ov sim).what_if_analysis.rpo_violation) := by
  refine ⟨?_, rfl, rfl, rfl, rfl⟩
  simp only [what_if_core, mkImprovementSummary]
  rcases hb : (sim baseline false).business_severity <;>
    rcases hm : (sim (model_copy_update baseline ov) true).business_severity <;>
    simp [hb, hm, SEVERITY_ORDER, specSeverityRank]

/-- Claim C5.  The modified configuration of a what-if analysis is obtained by
overlaying the override map on the baseline: every overridden field takes the
override value, every field not mentioned keeps the baseline's value, and the
non-overridable fields always keep the baseline's value.  (The baseline value
itself is untouched: `model_copy` returns a fresh object.) -/
theorem claim5_overlay (c : DbConfig) (o : ConfigOverrides) :
    overlayMatchesSpec c o (model_copy_update c o) := by
  obtain ⟨maz, brd, se, ic, als, mas, rr, amvu⟩ := o
  cases maz <;> cases brd <;> cases se <;> cases ic <;>
    cases als <;> cases mas <;> cases rr <;>
    simp [overlayMatchesSpec, model_copy_update]

/-- Claim C5, witness (spec Example 3): overriding only `multi_az` on the
`prod-orders-db-01` baseline yields `multi_az = true` with retention and
storage untouched. -/
theorem claim5_overlay_witness :
    (model_copy_update fakeOrdersDb ovMultiAz).multi_az = true ∧
    (model_copy_update fakeOrdersDb ovMultiAz).backup_retention_days =
      fakeOrdersDb.backup_retention_days ∧
    (model_copy_update fakeOrdersDb ovMultiAz).allocated_storage =
      fakeOrdersDb.allocated_storage := by
  have h := claim5_overlay fakeOrdersDb ovMultiAz
  exact ⟨h.1 true rfl, h.2.2.2.1 rfl, h.2.2.2.2.2.2.2.2.2.1 rfl⟩

/-- Claim C10.  The what-if route never reads or writes the result cache: its
response is the same whatever the cache holds (even a live entry for the same
key), and the cache is returned unchanged; the response is exactly the
direct-two-simulation result `what_if_core`. -/
theorem claim10_cache_frame (c1 c2 : Cache) (baseline : DbConfig)
    (ov : ConfigOverrides) (sim : DbConfig → Bool → DbImpactResponse) :
    (handle_what_if c1 baseline ov sim).fst = (handle_what_if c2 baseline ov sim).fst ∧
    (handle_what_if c1 baseline ov sim).snd = c1 ∧
    (handle_what_if c1 baseline ov sim).fst = what_if_core baseline ov sim :=
  ⟨rfl, rfl, rfl⟩

/-- Every sort key is at most the error rank 4. -/
theorem itemKey_le_four (x : BatchItem) : itemKey x ≤ 4 := by
  cases x with
  | success db r => cases hs : r.business_severity <;> simp [itemKey, hs, successRank]
  | error db e => simp [itemKey]

/-- A call of the cache wrapper that invoked the simulation leaves the key
bound to the fresh result with the call's timestamp. -/
theorem invoked_store (c : Cache) (key : String) (now : Rat) (v : DbImpactResponse)
    (hinv : (get_cached_or_run_simulation c key now v).snd.snd = true) :
    cacheLookup (get_cached_or_run_simulation c key now v).snd.fst key =
      some ⟨v, now⟩ := by
  rcases hl : cacheLookup c key with _ | e
  · simp only [get_cached_or_run_simulation, hl]
    exact cacheLookup_append c key ⟨v, now⟩ hl
  · by_cases hc : now - e.ts < CACHE_TTL
    · rw [get_cached_or_run_simulation, hl] at hinv
      simp [hc] at hinv
    · simp only [get_cached_or_run_simulation, hl, if_neg hc]
      exact cacheLookup_append _ _ _ (cacheLookup_evict c key)

/-- Claim C2.  In every `BatchResponse` the final results list is sorted by the
item key (so every success item precedes every error item, and success items
appear in nondecreasing severity rank CRITICAL=0 … LOW=3), and each key class
is kept in its original, completion-order relative order (stability). -/
theorem claim2_batch_ordering (ids : List String) (scenario : String)
    (sim : String → Except String DbImpactResponse) (order : List String)
    (resp : BatchResponse)
    (h : batch_analyze ids scenario sim order = .ok resp) :
    resp.results.Pairwise itemLE ∧
    (∀ k, resp.results.filter (fun a => itemKey a == k) =
      (batchItems sim order).filter (fun a => itemKey a == k)) ∧
    resp.results.Pairwise (fun a b => isErrorItem a = true → isErrorItem b = true) := by
  unfold batch_analyze at h
  rcases hfv : firstValidationError ids scenario with _ | e
  · rw [hfv] at h
    simp only [Except.ok.injEq] at h
    subst h
    refine ⟨List.sorted_insertionSort itemLE (batchItems sim order),
      fun k => filter_key_insertionSort (batchItems sim order) k, ?_⟩
    refine (List.sorted_insertionSort itemLE (batchItems sim order)).imp ?_
    intro a b hab hea
    have ha4 := (itemKey_eq_four_iff a).mpr hea
    have hb4 := itemKey_le_four b
    have : itemKey b = 4 := by
      unfold itemLE at hab
      omega
    exact (itemKey_eq_four_iff b).mp this
  · rw [hfv] at h
    exact absurd h (by simp)

/-- Claim C2, witness: a three-item batch with completion order
[error, LOW, HIGH] settles to [HIGH, LOW, error], which is sorted and keeps the
key-1 class unchanged. -/
theorem claim2_batch_ordering_witness :
    respBatchMixed.results.Pairwise itemLE ∧
    respBatchMixed.results.filter (fun a => itemKey a == 1) =
      (batchItems simBatchMixed
        ["prod-users-db", "dev-analytics-db-03", "prod-orders-db-01"]).filter
        (fun a => itemKey a == 1) := by
  have h := claim2_batch_ordering
    ["prod-orders-db-01", "prod-users-db", "dev-analytics-db-03"]
    "primary_db_failure" simBatchMixed
    ["prod-users-db", "dev-analytics-db-03", "prod-orders-db-01"]
    respBatchMixed rfl
  exact ⟨h.1, h.2.1 1⟩

/-- Claim C6.  Every `BatchResponse` satisfies `total_count = len(results)`
and `critical + high + medium + low = ` the number of success items (error
items are excluded from the severity counters). -/
theorem claim6_batch_counts (ids : List String) (scenario : String)
    (sim : String → Except String DbImpactResponse) (order : List String)
    (resp : BatchResponse)
    (h : batch_analyze ids scenario sim order = .ok resp) :
    resp.total_count = resp.results.length ∧
    resp.critical_count + resp.high_count + resp.medium_count + resp.low_count =
      (resp.results.filter isSuccessItem).length := by
  unfold batch_analyze at h
  rcases hfv : firstValidationError ids scenario with _ | e
  · rw [hfv] at h
    simp only [Except.ok.injEq] at h
    subst h
    refine ⟨rfl, ?_⟩
    have hsum := countSeverity_sum (batchItems sim order)
    have hperm : ((batchItems sim order).insertionSort itemLE).Perm
        (batchItems sim order) := List.perm_insertionSort itemLE _
    calc countSeverity (batchItems sim order) .CRITICAL +
          countSeverity (batchItems sim order) .HIGH +
          countSeverity (batchItems sim order) .MEDIUM +
          countSeverity (batchItems sim order) .LOW
        = (batchItems sim order).countP isSuccessItem := hsum
      _ = ((batchItems sim order).insertionSort itemLE).countP isSuccessItem :=
          (hperm.countP_eq _).symm
      _ = (((batchItems sim order).insertionSort itemLE).filter isSuccessItem).length :=
          List.countP_eq_length_filter _ _
  · rw [hfv] at h
    exact absurd h (by simp)

/-- Claim C6, witness: a batch of one CRITICAL success, one MEDIUM success and
one throttled error reports total 3 and counters summing to 2. -/
theorem claim6_batch_counts_witness :
    respBatchCounts.total_count = respBatchCounts.results.length ∧
    respBatchCounts.critical_count + respBatchCounts.high_count +
      respBatchCounts.medium_count + respBatchCounts.low_count =
      (respBatchCounts.results.filter isSuccessItem).length :=
  claim6_batch_counts
    ["prod-payments-db", "dev-analytics-db-03", "prod-users-db"]
    "primary_db_failure" simBatchCounts
    ["prod-users-db", "prod-payments-db", "dev-analytics-db-03"]
    respBatchCounts rfl

/-- Claim C3, amended.  When every identifier of a valid batch request also
passes the per-item `DbScenarioRequest` identifier validation, the batch call
never raises: every per-item analysis failure becomes an error item carrying
the failure message, every success a success item, and each item depends only
on its own identifier's outcome (the results are exactly the completion-order
items, reordered).  A syntactically invalid identifier, however, makes the
dispatch-time `DbScenarioRequest` construction raise out of the batch call
(see the counterexample). -/
theorem claim3_amended (ids : List String) (scenario : String)
    (sim : String → Except String DbImpactResponse) (order : List String)
    (hreq : (mkBatchRequest ids scenario).isOk = true)
    (hids : ∀ i ∈ ids, (mkDbScenarioRequest i scenario).isOk = true) :
    (batch_analyze ids scenario sim order).isOk = true ∧
    ∀ resp, batch_analyze ids scenario sim order = .ok resp →
      resp.results.Perm (batchItems sim order) ∧
      (∀ i msg, i ∈ order → sim i = .error msg →
        BatchItem.error i msg ∈ resp.results) ∧
      (∀ i r, i ∈ order → sim i = .ok r →
        BatchItem.success i r ∈ resp.results) := by
  have hfv : firstValidationError ids scenario = none := by
    unfold firstValidationError
    rw [List.findSome?_eq_none_iff]
    intro i hi
    rcases h2 : mkDbScenarioRequest i scenario with e | req
    · have := hids i hi
      rw [h2] at this
      exact absurd this (by simp [isOk_error])
    · simp
  constructor
  · unfold batch_analyze
    rw [hfv]
    rfl
  · intro resp h
    unfold batch_analyze at h
    rw [hfv] at h
    simp only [Except.ok.injEq] at h
    subst h
    refine ⟨List.perm_insertionSort itemLE _, ?_, ?_⟩
    · intro i msg hi hsim
      have hmem : BatchItem.error i msg ∈ batchItems sim order :=
        List.mem_map.mpr ⟨i, hi, by simp [mkItem, hsim]⟩
      exact ((List.perm_insertionSort itemLE _).mem_iff).mpr hmem
    · intro i r hi hsim
      have hmem : BatchItem.success i r ∈ batchItems sim order :=
        List.mem_map.mpr ⟨i, hi, by simp [mkItem, hsim]⟩
      exact ((List.perm_insertionSort itemLE _).mem_iff).mpr hmem

/-- Claim C3, witness for the amended theorem: a batch over two valid
identifiers where one simulation fails returns normally, with the unresolved
identifier captured as an error item. -/
theorem claim3_amended_witness :
    (batch_analyze ["prod-orders-db-01", "prod-users-db"] "primary_db_failure"
      simBatchMixed ["prod-orders-db-01", "prod-users-db"]).isOk = true ∧
    BatchItem.error "prod-users-db" "Database prod-users-db not found in AWS" ∈
      respBatchTwo.results := by
  have h := claim3_amended ["prod-orders-db-01", "prod-users-db"]
    "primary_db_failure" simBatchMixed ["prod-orders-db-01", "prod-users-db"]
    (by decide) (by decide)
  exact ⟨h.1, ((h.2 respBatchTwo rfl).2.1 "prod-users-db"
    "Database prod-users-db not found in AWS" (by decide) rfl)⟩

/-- Claim C3, counterexample to the claim as stated: a valid batch request
(two identifiers, within the size bound) whose second identifier fails the
RDS pattern makes the batch call itself fail — the bad identifier is raised
out of `batch_analyze` by the dispatch-time request construction instead of
being captured as an error item. -/
theorem claim3_counterexample :
    (mkBatchRequest ["prod-orders-db-01", "1bad"] "primary_db_failure").isOk = true ∧
    (batch_analyze ["prod-orders-db-01", "1bad"] "primary_db_failure" simAllOk
      ["prod-orders-db-01", "1bad"]).isOk = false := by
  constructor
  · decide
  · decide

/-- Claim C7.  The cache wrapper returns a live entry (age < 600 s) without
invoking the simulation; otherwise it evicts any stale entry, invokes the
simulation once, stores the result under the call's timestamp and returns it.
Consequently, if a call invoked the simulation, a second call for the same key
within 600 seconds does not invoke it again, while a second call at or past
the 600-second TTL does. -/
theorem claim7_cache (c : Cache) (key : String) (now1 now2 : Rat)
    (v1 v2 : DbImpactResponse) :
    (∀ e, cacheLookup c key = some e → now1 - e.ts < CACHE_TTL →
        get_cached_or_run_simulation c key now1 v1 = (e.response, c, false)) ∧
    ((∀ e, cacheLookup c key = some e → CACHE_TTL ≤ now1 - e.ts) →
        (get_cached_or_run_simulation c key now1 v1).fst = v1 ∧
        (get_cached_or_run_simulation c key now1 v1).snd.snd = true ∧
        cacheLookup (get_cached_or_run_simulation c key now1 v1).snd.fst key =
          some ⟨v1, now1⟩) ∧
    (now2 - now1 < CACHE_TTL →
        (get_cached_or_run_simulation c key now1 v1).snd.snd = true →
        (get_cached_or_run_simulation
          (get_cached_or_run_simulation c key now1 v1).snd.fst key now2 v2).snd.snd =
          false) ∧
    (CACHE_TTL ≤ now2 - now1 →
        (get_cached_or_run_simulation c key now1 v1).snd.snd = true →
        (get_cached_or_run_simulation
          (get_cached_or_run_simulation c key now1 v1).snd.fst key now2 v2).snd.snd =
          true) := by
  refine ⟨?_, ?_, ?_, ?_⟩
  · intro e he hlt
    simp [get_cached_or_run_simulation, he, hlt]
  · intro hstale
    rcases hl : cacheLookup c key with _ | e
    · have h1 : get_cached_or_run_simulation c key now1 v1 =
          (v1, c ++ [(key, ⟨v1, now1⟩)], true) := by
        rw [get_cached_or_run_simulation, hl]
      rw [h1]
      exact ⟨rfl, rfl, cacheLookup_append c key ⟨v1, now1⟩ hl⟩
    · have hge := hstale e hl
      have hnlt : ¬(now1 - e.ts < CACHE_TTL) := not_lt.mpr hge
      have h1 : get_cached_or_run_simulation c key now1 v1 =
          (v1, cacheEvict c key ++ [(key, ⟨v1, now1⟩)], true) := by
        rw [get_cached_or_run_simulation, hl]
        simp [hnlt]
      rw [h1]
      exact ⟨rfl, rfl, cacheLookup_append _ _ _ (cacheLookup_evict c key)⟩
  · intro hlt hinv
    have hstore := invoked_store c key now1 v1 hinv
    generalize (get_cached_or_run_simulation c key now1 v1).snd.fst = X at hstore ⊢
    rw [get_cached_or_run_simulation, hstore]
    simp [hlt]
  · intro hge hinv
    have hstore := invoked_store c key now1 v1 hinv
    have hn : ¬(now2 - now1 < CACHE_TTL) := not_lt.mpr hge
    generalize (get_cached_or_run_simulation c key now1 v1).snd.fst = X at hstore ⊢
    rw [get_cached_or_run_simulation, hstore]
    simp [hn]

/-- Claim C7, witness: a 300-second-old entry is served without invoking the
simulation and the cache is unchanged. -/
theorem claim7_cache_witness :
    get_cached_or_run_simulation cacheOneEntry
      "prod-orders-db-01#primary_db_failure" 300 respHIGH =
      (respLOW, cacheOneEntry, false) :=
  (claim7_cache cacheOneEntry "prod-orders-db-01#primary_db_failure" 300 900
    respHIGH respHIGH).1 ⟨respLOW, 0⟩ rfl (by norm_num [CACHE_TTL])

/-- Claim C8, amended.  Every configuration resolved by the config resolver —
seed directory or external describe call — satisfies
`max_allocated_storage ≥ allocated_storage`; the modified configuration of a
what-if analysis, however, can violate it, because the overrides are overlaid
by `model_copy` without revalidation (see the counterexample). -/
theorem claim8_amended :
    (∀ p ∈ FAKE_DATABASES, storageInvariant p.snd) ∧
    (∀ id cfg, get_fake_db_state id = .ok cfg → storageInvariant cfg) ∧
    (∀ raw cfg, get_real_db_state raw = .ok cfg → storageInvariant cfg) := by
  have hall : ∀ p ∈ FAKE_DATABASES, storageInvariant p.snd := by decide
  refine ⟨hall, ?_, ?_⟩
  · intro id cfg h
    unfold get_fake_db_state at h
    rcases hf : FAKE_DATABASES.find? (fun e => e.fst == id) with _ | p
    · rw [hf] at h
      simp at h
    · rw [hf] at h
      simp at h
      subst h
      exact hall p (List.mem_of_find?_eq_some hf)
  · intro raw cfg h
    unfold get_real_db_state mkDbConfigChecked at h
    split_ifs at h with hle
    simp only [Except.ok.injEq] at h
    subst h
    exact hle

/-- Claim C8, witness: a describe record reporting 100 GB allocated under a
500 GB ceiling resolves to a configuration satisfying the invariant. -/
theorem claim8_amended_witness : storageInvariant cfgSample :=
  claim8_amended.2.2 rawSample cfgSample rfl

/-- Claim C8, counterexample to the claim as stated: a valid what-if request
overriding `allocated_storage` to 2000 GB over the `prod-orders-db-01`
baseline (ceiling 1000 GB) yields a modified configuration violating
`max_allocated_storage ≥ allocated_storage`. -/
theorem claim8_counterexample :
    (mkWhatIfRequest "prod-orders-db-01" "primary_db_failure" ovOverAlloc).isOk = true ∧
    (what_if_core fakeOrdersDb ovOverAlloc simWhatIf).what_if_analysis =
      simWhatIf (model_copy_update fakeOrdersDb ovOverAlloc) true ∧
    ¬ storageInvariant (model_copy_update fakeOrdersDb ovOverAlloc) := by
  refine ⟨by decide, rfl, ?_⟩
  norm_num [storageInvariant, model_copy_update, fakeOrdersDb, ovOverAlloc]

/-- Claim C9, amended.  Single requests and batch items are rejected with a
validation error before any analysis work when the identifier fails the
source's `re.match` of the RDS pattern (which, under Python semantics, also
tolerates one trailing newline); the what-if request validator, however,
applies no pattern check — it only rejects empty or whitespace-only
identifiers — so any non-empty identifier passes what-if validation
unchallenged (see the counterexample). -/
theorem claim9_amended :
    (∀ v scenario, py_id_match v = false →
        (mkDbScenarioRequest v scenario).isOk = false) ∧
    (∀ ids scenario sim order, (∃ i ∈ ids, py_id_match i = false) →
        (batch_analyze ids scenario sim order).isOk = false) ∧
    (∀ v scenario ov, pyStrip v ≠ "" → validate_scenario scenario = true →
        ov.presentKeys ≠ [] → (mkWhatIfRequest v scenario ov).isOk = true) := by
  have hsingle : ∀ v scenario, py_id_match v = false →
      (mkDbScenarioRequest v scenario).isOk = false := by
    intro v scenario hv
    unfold mkDbScenarioRequest
    by_cases he : pyStrip v = ""
    · simp [he, isOk_error]
    · simp [he, hv, isOk_error]
  refine ⟨hsingle, ?_, ?_⟩
  · intro ids scenario sim order hex
    obtain ⟨i, hi, hbad⟩ := hex
    unfold batch_analyze
    rcases hfv : firstValidationError ids scenario with _ | e
    · exfalso
      unfold firstValidationError at hfv
      rw [List.findSome?_eq_none_iff] at hfv
      have := hfv i hi
      rcases h2 : mkDbScenarioRequest i scenario with msg | req
      · rw [h2] at this
        exact absurd this (by simp)
      · have := hsingle i scenario hbad
        rw [h2] at this
        exact absurd this (by simp [isOk_ok])
    · simp [isOk_error]
  · intro v scenario ov hne hsc hkeys
    unfold mkWhatIfRequest
    have hkeysB : ov.presentKeys.isEmpty = false := by
      rcases hk : ov.presentKeys with _ | ⟨a, rest⟩
      · exact absurd hk hkeys
      · rfl
    simp [hkeysB, hsc, hne, isOk_ok]

/-- Claim C9, witness for the amended theorem: the malformed identifier
`1bad` is rejected by single-request validation yet accepted by what-if
request validation. -/
theorem claim9_amended_witness :
    (mkDbScenarioRequest "1bad" "primary_db_failure").isOk = false ∧
    (mkWhatIfRequest "valid-name" "primary_db_failure" ovMultiAz).isOk = true := by
  refine ⟨claim9_amended.1 "1bad" "primary_db_failure" (by decide), ?_⟩
  exact claim9_amended.2.2 "valid-name" "primary_db_failure" ovMultiAz
    (by decide) (by decide) (by decide)

/-- Claim C9, counterexample to the claim as stated: the identifier `1bad`
does not match `^[A-Za-z][A-Za-z0-9-]{0,62}$`, yet a what-if request carrying
it passes validation — no `ValidationError` is raised before analysis work
begins. -/
theorem claim9_counterexample :
    py_id_match "1bad" = false ∧ core_id_match "1bad" = false ∧
    (mkWhatIfRequest "1bad" "primary_db_failure" ovMultiAz).isOk = true := by
  refine ⟨by decide, by decide, by decide⟩

end DBImpact
